import Mathlib

/-!
Shallow embedding of `deephyper/search/hps/_dmbs_mpi.py`: the `History`
record store and the `DMBSMPI` distributed model-based search driver.

Objective values and hyperparameter values are modelled as rationals.  The
external skopt optimizer is modelled at its ask/tell interface boundary
(an abstract `ask` function plus explicit bookkeeping of the configurations
it has ingested and a log of every `tell` payload).  The MPI transport is
modelled by explicit pending-message queues (for `recv_any`) and by a
per-iteration delivery schedule for the search loop, which abstracts the
effect of `recv_any` (appending the drained observations to the local
history in receipt order).
-/

/-- A hyperparameter configuration: an ordered list of scalar values. -/
abbrev Config := List ℚ

/-- Python list indexing `l[i]` with possibly negative `i`; `none` models an
`IndexError`. -/
def pyIndex {α : Type} (l : List α) (i : Int) : Option α :=
  if 0 ≤ i then l.get? i.toNat
  else if (-i).toNat ≤ l.length then l.get? (l.length - (-i).toNat)
  else none

/-- Python slicing `l[i:]` with possibly negative `i`: a nonnegative start
drops that many elements; a negative start `-n` keeps the last `n` elements
(clamped at the full list).  Note `l[(-0):]` is the whole list. -/
def pySliceFrom {α : Type} (l : List α) (i : Int) : List α :=
  if 0 ≤ i then l.drop i.toNat
  else l.drop (l.length - (-i).toNat)

/-- Transpose of a row-major matrix, mirroring `np.array(rows).T` in the
rectangular case (every row has the length of the first row); the driver
only relies on it when all side-info rows share the registry length. -/
def npTranspose (rows : List (List ℚ)) : List (List ℚ) :=
  (List.range (match rows with | [] => 0 | r :: _ => r.length)).map
    fun j => rows.map fun r => r.getD j 0

/-- Lookup in the Python dict built by a comprehension over an association
list, as in `dict(zip(keys, cols))`: on duplicate keys the LAST pair wins;
lookup of an absent key fails (`KeyError`, modelled as `none`). -/
def pyDictLookup (pairs : List (String × List ℚ)) (k : String) : Option (List ℚ) :=
  match pairs with
  | [] => none
  | (k0, v0) :: rest =>
    match pyDictLookup rest k with
    | some v => some v
    | none => if k0 = k then some v0 else none

/-- `class History` (lines 16-45): four parallel lists. -/
structure History where
  list_x : List Config
  list_y : List ℚ
  keys_infos : List String
  list_infos : List (List ℚ)
deriving DecidableEq, Repr

namespace History

/-- `History.__init__`: all four lists empty. -/
def empty : History := ⟨[], [], [], []⟩

/-- `append_keys_infos(self, k): self._keys_infos.extend(k)`. -/
def append_keys_infos (h : History) (k : List String) : History :=
  { h with keys_infos := h.keys_infos ++ k }

/-- `get_keys_infos(self): return self._keys_infos`. -/
def get_keys_infos (h : History) : List String := h.keys_infos

/-- `append(self, x, y, infos)`: push one observation onto the three
parallel lists. -/
def append (h : History) (x : Config) (y : ℚ) (infos : List ℚ) : History :=
  { h with
    list_x := h.list_x ++ [x]
    list_y := h.list_y ++ [y]
    list_infos := h.list_infos ++ [infos] }

/-- `length(self): return len(self._list_x)`. -/
def length (h : History) : Nat := h.list_x.length

/-- `value(self): return self._list_x[:], self._list_y[:]`. -/
def value (h : History) : List Config × List ℚ := (h.list_x, h.list_y)

/-- `infos(self)`: the configuration list, the objective list, and the dict
zipping the registered key names with the transposed side-info rows. -/
def infos (h : History) : List Config × List ℚ × List (String × List ℚ) :=
  (h.list_x, h.list_y, h.keys_infos.zip (npTranspose h.list_infos))

end History

/-- One observation broadcast between ranks: the tuple `data = (x, y, infos)`
of `send_all` / `recv_any`. -/
structure Obs where
  x : Config
  y : ℚ
  infos : List ℚ
deriving DecidableEq, Repr

/-- Result of the run function (lines 229-238): either a bare scalar
objective, or the structured profiling dict carrying the keys
`objective`, `timestamp_start`, `timestamp_end`. -/
inductive RunOutput where
  | scalar (y : ℚ)
  | profile (objective timestamp_start timestamp_end : ℚ)
deriving DecidableEq, Repr

/-- The objective value as reported by the user, before any negation. -/
def RunOutput.userObjective : RunOutput → ℚ
  | .scalar y => y
  | .profile obj _ _ => obj

namespace DMBSMPI

/-- Model of the external skopt optimizer at its interface boundary
(spec section 6): `Xi` is the list of configurations it has ingested through
`tell` (skopt appends told points to `Opt.Xi`); `toldLog` records the exact
payload of every `tell` call — the configuration-list argument together with
the objective argument the driver actually passes, which in the source is
the SINGLE element `hist_y[-n_new]` (an `Option` scalar, `none` standing for
an `IndexError`); `nAsks` counts `ask` calls, which advance the internal
sampler state; `seed` is the per-rank random seed it was constructed with. -/
structure Opt where
  seed : Nat
  nAsks : Nat
  Xi : List Config
  toldLog : List (List Config × Option ℚ)
deriving DecidableEq, Repr

/-- `self._opt.tell(xs, y)`: the optimizer ingests the configurations and the
call is logged. -/
def Opt.tell (o : Opt) (xs : List Config) (y : Option ℚ) : Opt :=
  { o with Xi := o.Xi ++ xs, toldLog := o.toldLog ++ [(xs, y)] }

/-- `_setup_optimizer` (lines 206-209): a fresh optimizer built from
`self._opt_kwargs`, whose `random_state` is the per-rank seed. -/
def setup_optimizer (seed : Nat) : Opt :=
  { seed := seed, nAsks := 0, Xi := [], toldLog := [] }

/-- Objective extraction and side-info construction for one evaluation
(lines 226-241 and 272-283): `infos` starts as `[rank]`; in the profiling
branch the objective is unpacked and the two relative timestamps are
appended to `infos`, and the keys `profile_keys[1:]` are the extra names to
register (used by the first iteration only); finally `y = -y`
(maximization).  Returns `(stored objective, infos row, extra keys)`. -/
def processOutput (rank : Nat) (timestamp : ℚ) (out : RunOutput) :
    ℚ × List ℚ × List String :=
  match out with
  | .scalar y => (-y, [(rank : ℚ)], [])
  | .profile obj ts te =>
      (-obj, [(rank : ℚ), ts - timestamp, te - timestamp],
       ["timestamp_start", "timestamp_end"])

/-- The mutable per-call session state of `_search`: the local `History`,
the optimizer, plus two observers of the execution — the number of
run-function invocations and the sequence of configurations returned by
`ask`, in order. -/
structure SearchState where
  history : History
  opt : Opt
  nEvals : Nat
  proposals : List Config
deriving DecidableEq, Repr

/-- The effect of `recv_any` on the local history: every drained observation
is appended in receipt order (line 148). -/
def drainInto (h : History) (msgs : List Obs) : History :=
  msgs.foldl (fun h m => h.append m.x m.y m.infos) h

/-- One iteration of the `while` loop of `_search` (lines 245-287):
drain inbound observations (`recv_any`, abstracted by the delivered list
`recvd`), read the history, compute `n_new = len(hist_X) - len(self._opt.Xi)`,
tell the optimizer `(hist_X[-n_new:], hist_y[-n_new])` — note the source
passes the single scalar `hist_y[-n_new]`, not a slice — then ask for the
next configuration, evaluate it, negate the objective and append; `send_all`
has no effect on local state. -/
def loopIter (askFn : Opt → Config) (run : Config → RunOutput) (rank : Nat)
    (timestamp : ℚ) (recvd : List Obs) (s : SearchState) : SearchState :=
  let history := drainInto s.history recvd
  let hist_X := (history.value).1
  let hist_y := (history.value).2
  let n_new : Int := (hist_X.length : Int) - (s.opt.Xi.length : Int)
  let opt := s.opt.tell (pySliceFrom hist_X (-n_new)) (pyIndex hist_y (-n_new))
  let x := askFn opt
  let opt := { opt with nAsks := opt.nAsks + 1 }
  let out := run x
  let y := (processOutput rank timestamp out).1
  let infos := (processOutput rank timestamp out).2.1
  { history := history.append x y infos
    opt := opt
    nEvals := s.nEvals + 1
    proposals := s.proposals ++ [x] }

/-- The part of `_search` before the loop (lines 211-243): build the
optimizer if absent, ask one configuration, evaluate it, register
`["worker_rank"]` (and the profiling keys when the run function returned a
profiling dict), negate the objective and append it to the fresh history. -/
def preLoop (askFn : Opt → Config) (run : Config → RunOutput) (rank : Nat)
    (timestamp : ℚ) (seed : Nat) : SearchState :=
  let opt := setup_optimizer seed
  let x := askFn opt
  let opt := { opt with nAsks := opt.nAsks + 1 }
  let out := run x
  let history := History.empty.append_keys_infos ["worker_rank"]
  let history := history.append_keys_infos (processOutput rank timestamp out).2.2
  let y := (processOutput rank timestamp out).1
  let infos := (processOutput rank timestamp out).2.1
  { history := history.append x y infos
    opt := opt
    nEvals := 1
    proposals := [x] }

/-- How a run of the `while` loop of `_search` ended. -/
inductive LoopExit where
  | budget
  | terminated
  | fuelOut
deriving DecidableEq, Repr

/-- The `while max_evals < 0 or self._history.length() < max_evals` loop of
`_search` (lines 245-287), fuel-indexed since it need not terminate.
`sched k` is the list of observations `recv_any` drains on iteration `k`;
`fires k` tells whether the SIGALRM timeout handler raises
`SearchTerminationError` at the checkpoint of iteration `k` (the
cancellation is cooperative: it is observed only between loop steps).
`LoopExit.budget` is the normal exit through the loop condition;
`LoopExit.terminated` is the raised termination condition. -/
def searchLoop (askFn : Opt → Config) (run : Config → RunOutput) (rank : Nat)
    (timestamp : ℚ) (sched : Nat → List Obs) (fires : Nat → Bool) :
    Nat → Int → Nat → SearchState → SearchState × LoopExit
  | 0, _, _, s => (s, .fuelOut)
  | fuel + 1, max_evals, k, s =>
    if fires k then (s, .terminated)
    else if max_evals < 0 ∨ (s.history.length : Int) < max_evals then
      searchLoop askFn run rank timestamp sched fires fuel max_evals (k + 1)
        (loopIter askFn run rank timestamp (sched k) s)
    else (s, .budget)

/-- `_search(max_evals, timeout)` (lines 211-287): the pre-loop evaluation
followed by the loop.  Returns the final session state together with how the
loop ended. -/
def searchBody (askFn : Opt → Config) (run : Config → RunOutput) (rank : Nat)
    (timestamp : ℚ) (sched : Nat → List Obs) (fires : Nat → Bool) (seed : Nat)
    (max_evals : Int) (fuel : Nat) : SearchState × LoopExit :=
  searchLoop askFn run rank timestamp sched fires fuel max_evals 0
    (preLoop askFn run rank timestamp seed)

end DMBSMPI

/-- A Python value passed as the `timeout` argument of `search`:
`None`, an `int`, or a value of any other type (`type(timeout) is not int`). -/
inductive PyValue where
  | noneV
  | intV (n : Int)
  | otherV
deriving DecidableEq, Repr

/-- The exceptions the driver can raise: `ValueError` (configuration error)
and `SearchTerminationError` (the timeout condition). -/
inductive PyError where
  | valueError (msg : String)
  | searchTermination
deriving DecidableEq, Repr

/-- The timeout validation at the top of `search` (lines 185-191): a
non-`None` timeout that is not an `int` or is `<= 0` raises `ValueError`. -/
def validateTimeout : PyValue → Except PyError Unit
  | .noneV => .ok ()
  | .otherV => .error (.valueError "timeout should be of type int")
  | .intV n =>
    if n ≤ 0 then .error (.valueError "timeout should be > 0") else .ok ()

/-- The pandas DataFrame built by `gather_results`, modelled by its columns:
one column per hyperparameter dimension, the `objective` column, and the
side-info columns.  All columns have one entry per observation, so the row
count is the length of the `objective` column. -/
structure ResultTable where
  dimColumns : List (String × List ℚ)
  objective : List ℚ
  infoColumns : List (String × List ℚ)
deriving DecidableEq, Repr

/-- Number of rows of the DataFrame. -/
def ResultTable.nrows (t : ResultTable) : Nat := t.objective.length

/-- `gather_results` (lines 306-317): read the history back through
`infos()`, transpose the configuration list into one column per dimension
(`x_list[i]` for the i-th hyperparameter name), negate the objective column
back to the user convention, and merge with the side-info columns. -/
def gather_results (hpNames : List String) (h : History) : ResultTable :=
  let x_list := npTranspose (h.infos).1
  let y_list := ((h.infos).2.1).map fun y => -y
  { dimColumns := hpNames.enum.map fun p => (p.2, x_list.getD p.1 [])
    objective := y_list
    infoColumns := (h.infos).2.2 }

namespace DMBSMPI

/-- `search(max_evals, timeout)` (lines 175-204): validate the timeout (a
`ValueError` propagates), arm the alarm, run `_search` inside
`try ... except SearchTerminationError: pass` — the raised termination
condition is swallowed and, whatever way the loop ended, the results are
gathered from the history accumulated so far and returned. -/
def search (askFn : Opt → Config) (run : Config → RunOutput) (rank : Nat)
    (timestamp : ℚ) (sched : Nat → List Obs) (fires : Nat → Bool) (seed : Nat)
    (hpNames : List String) (max_evals : Int) (timeout : PyValue)
    (fuel : Nat) : Except PyError ResultTable :=
  match validateTimeout timeout with
  | .error e => .error e
  | .ok _ =>
    let body := searchBody askFn run rank timestamp sched fires seed max_evals fuel
    .ok (gather_results hpNames (body.1).history)

/-- Pending inbound message queues of the transport: entry `i` holds the
messages sent by rank `i` that this process has not received yet. -/
abbrev Pending := List (List Obs)

/-- One pass of the drain loop of `recv_any` (lines 137-150): for every peer
rank `i != rank` in order, test the outstanding receive from `i`; a
completed receive (the peer has a pending message) appends the observation
to the history and sets `received_any`; an incomplete one is cancelled and
leaves no trace. -/
def recvPass (size rank : Nat) (p : Pending) (h : History) :
    Pending × History × Bool :=
  (List.range size).foldl
    (fun acc i =>
      if i = rank then acc
      else
        match (acc.1).getD i [] with
        | [] => acc
        | m :: rest => ((acc.1).set i rest, (acc.2.1).append m.x m.y m.infos, true))
    (p, h, false)

/-- The `while received_any` loop of `recv_any` (lines 135-150),
fuel-indexed: while the flag is set, run a pass and continue with the flag
it produced. -/
def recvWhile (size rank : Nat) : Nat → Bool → Pending → History → Pending × History
  | 0, _, p, h => (p, h)
  | fuel + 1, received_any, p, h =>
    if received_any then
      let pass := recvPass size rank p h
      recvWhile size rank fuel (pass.2.2) (pass.1) (pass.2.1)
    else (p, h)

/-- `recv_any` (lines 128-154): the flag is initialised to
`self._size > 1`, so with one process the drain loop body is never
entered. -/
def recv_any (size rank : Nat) (fuel : Nat) (p : Pending) (h : History) :
    Pending × History :=
  recvWhile size rank fuel (decide (size > 1)) p h

/-- Derivation of the per-rank optimizer seed (lines 96-99), over an
abstract deterministic PRNG: `draw seed idx bound` is the idx-th value in
`[0, bound)` drawn from a `np.random.RandomState` seeded with `seed`.  The
source first draws one bound (`randint(0, 2**32)`), then an array of `size`
values below that bound from the same advanced generator state, and keeps
index `rank`. -/
def rankSeed (draw : Nat → Nat → Nat → Nat) (masterSeed size rank : Nat) : Nat :=
  let bound := draw masterSeed 0 (2 ^ 32)
  ((List.range size).map fun i => draw masterSeed (1 + i) bound).getD rank 0

end DMBSMPI

/-! Concrete instances used to evaluate the embedding at specific inputs. -/

/-- A concrete ask function: always proposes the configuration `[0]`. -/
def askC : DMBSMPI.Opt → Config := fun _ => [0]

/-- A concrete run function reporting the scalar objective `-3`
(stored as `3` after the maximization negation). -/
def runC : Config → RunOutput := fun _ => RunOutput.scalar (-3)

/-- A concrete scalar run function reporting objective `7`. -/
def fC : Config → ℚ := fun _ => 7

/-- A concrete remote observation (already negated by its sender). -/
def obsC : Obs := { x := [1], y := 5, infos := [1] }

/-- A concrete deterministic PRNG for exercising `rankSeed`. -/
def drawC : Nat → Nat → Nat → Nat := fun s i _ => s * 31 + i

/-- A concrete one-observation history with registered key
`worker_rank`. -/
def historyC : History :=
  (History.empty.append_keys_infos ["worker_rank"]).append [0] 3 [2]


/-! Helper lemmas shared by several results. -/

open DMBSMPI

/-- Lookup of a key absent from an association list fails. -/
theorem pyDictLookup_eq_none (pairs : List (String × List ℚ)) (k : String)
    (hk : k ∉ pairs.map Prod.fst) : pyDictLookup pairs k = none := by
  induction pairs with
  | nil => rfl
  | cons p rest ih =>
    simp only [List.map_cons, List.mem_cons] at hk
    push_neg at hk
    obtain ⟨p1, p2⟩ := p
    simp only [pyDictLookup, ih hk.2]
    exact if_neg fun hh => hk.1 hh.symm

/-- Lookup of the j-th key in the dict zipping pairwise-distinct keys with
equally many columns yields the j-th column. -/
theorem pyDictLookup_zip (keys : List String) (cols : List (List ℚ))
    (hnd : keys.Nodup) (hlen : keys.length = cols.length) :
    ∀ j, j < keys.length →
      pyDictLookup (keys.zip cols) (keys.getD j "") = cols.get? j := by
  induction keys generalizing cols with
  | nil => intro j hj; exact absurd hj (by simp)
  | cons k0 ks ih =>
    cases cols with
    | nil => simp at hlen
    | cons c0 cs =>
      intro j hj
      have hlen' : ks.length = cs.length := by simpa using hlen
      cases j with
      | zero =>
        simp only [List.zip_cons_cons, pyDictLookup, List.getD_cons_zero]
        rw [pyDictLookup_eq_none]
        · simp
        · show k0 ∉ List.map Prod.fst (ks.zip cs)
          rw [List.map_fst_zip ks cs (le_of_eq hlen')]
          exact (List.nodup_cons.mp hnd).1
      | succ j =>
        have hj' : j < ks.length := by simpa using hj
        have hrec := ih cs (List.Nodup.of_cons hnd) hlen' j hj'
        have hjc : j < cs.length := hlen' ▸ hj'
        have hz : List.zipWith Prod.mk ks cs = ks.zip cs := rfl
        simp only [List.zip_cons_cons, pyDictLookup, List.getD_cons_succ,
          List.get?_cons_succ]
        rw [hz, hrec, List.get?_eq_get hjc]

/-- Both observation lists of the pre-loop state have exactly one entry. -/
theorem preLoop_lengths (askFn : Opt → Config) (run : Config → RunOutput)
    (rank : Nat) (ts : ℚ) (seed : Nat) :
    (preLoop askFn run rank ts seed).history.list_x.length = 1 ∧
    (preLoop askFn run rank ts seed).history.list_y.length = 1 := by
  constructor <;> rfl

/-- A loop iteration that drains no message grows both observation lists by
exactly one. -/
theorem loopIter_lengths (askFn : Opt → Config) (run : Config → RunOutput)
    (rank : Nat) (ts : ℚ) (s : SearchState) :
    (loopIter askFn run rank ts [] s).history.list_x.length
        = s.history.list_x.length + 1 ∧
    (loopIter askFn run rank ts [] s).history.list_y.length
        = s.history.list_y.length + 1 := by
  constructor <;> simp [loopIter, drainInto, History.append, History.value]

/-- The row count of the gathered table is the objective-list length of the
history it was built from. -/
theorem gather_nrows (hpNames : List String) (h : History) :
    (gather_results hpNames h).nrows = h.list_y.length := by
  simp [gather_results, ResultTable.nrows, History.infos]

/-- C1: at the history state `[( [0], 3 ), ( [1], 5 )]` with the optimizer
having ingested no configuration yet (`n_new = 2`, as after `recv_any`
drained one remote observation before the first loop iteration), the loop
iteration tells the optimizer the configuration delta `[[0], [1]]` but, as
objective argument, only the SINGLE scalar `hist_y[-n_new] = 3`, while the
objective delta `hist_y[-n_new:]` is the two-element list `[3, 5]`: the
objective list is not restricted to the delta — it is not a list at all. -/
theorem tell_scalar_objective_bug :
    (loopIter askC runC 0 0 [obsC] (preLoop askC runC 0 0 7)).opt.toldLog
      = [([[0], [1]], some 3)] ∧
    pySliceFrom
        ((drainInto (preLoop askC runC 0 0 7).history [obsC]).list_y)
        (-(2 : Int))
      = [3, 5] := by
  constructor <;> decide

/-- C3: the objective value stored in History is the negation of the
user-reported objective (bare scalar or the objective field of a profiling
result), the objective column of the gathered table is the pointwise
negation of the stored objective list, and appending an observation through
the ingest path appends the original user value to the output objective
column (negate on ingest, negate on output is the identity). -/
theorem objective_round_trip (hpNames : List String) (h : History) (x : Config)
    (rank : Nat) (ts : ℚ) (out : RunOutput) :
    (processOutput rank ts out).1 = -(out.userObjective) ∧
    (gather_results hpNames h).objective = h.list_y.map (fun y => -y) ∧
    (gather_results hpNames
        (h.append x (processOutput rank ts out).1
          (processOutput rank ts out).2.1)).objective
      = (gather_results hpNames h).objective ++ [out.userObjective] := by
  refine ⟨?_, rfl, ?_⟩
  · cases out <;> rfl
  · cases out <;>
      simp [gather_results, History.infos, History.append, processOutput,
        RunOutput.userObjective]

/-- C5: a non-`None` timeout that is not an integer, or that is an integer
`<= 0`, makes `search` raise `ValueError` (for every run function and fuel,
so before any evaluation is performed); a `None` timeout raises no error
and the search returns a table. -/
theorem timeout_validation (askFn : Opt → Config) (run : Config → RunOutput)
    (rank : Nat) (ts : ℚ) (sched : Nat → List Obs) (fires : Nat → Bool)
    (seed : Nat) (hpNames : List String) (max_evals : Int) (fuel : Nat)
    (n : Int) (hn : n ≤ 0) :
    search askFn run rank ts sched fires seed hpNames max_evals
        PyValue.otherV fuel
      = Except.error (PyError.valueError "timeout should be of type int") ∧
    search askFn run rank ts sched fires seed hpNames max_evals
        (PyValue.intV n) fuel
      = Except.error (PyError.valueError "timeout should be > 0") ∧
    ∃ tbl, search askFn run rank ts sched fires seed hpNames max_evals
        PyValue.noneV fuel = Except.ok tbl := by
  refine ⟨rfl, ?_, ⟨_, rfl⟩⟩
  simp [search, validateTimeout, hn]

/-- Witness for C5 at `timeout = 0` and concrete arguments. -/
theorem timeout_validation_witness :
    (0 : Int) ≤ 0 ∧
    (search askC runC 0 0 (fun _ => []) (fun _ => false) 7 ["x0"] 4
        PyValue.otherV 2
      = Except.error (PyError.valueError "timeout should be of type int") ∧
    search askC runC 0 0 (fun _ => []) (fun _ => false) 7 ["x0"] 4
        (PyValue.intV 0) 2
      = Except.error (PyError.valueError "timeout should be > 0") ∧
    ∃ tbl, search askC runC 0 0 (fun _ => []) (fun _ => false) 7 ["x0"] 4
        PyValue.noneV 2 = Except.ok tbl) :=
  ⟨by decide,
   timeout_validation askC runC 0 0 (fun _ => []) (fun _ => false) 7 ["x0"] 4 2
     0 (by decide)⟩

/-- C6: with a single process (`N = 1`), `recv_any` returns immediately —
the drain loop body is never entered — and leaves both the pending queues
and the History (hence its length, configurations, objectives, side-info
rows and registered key names) completely unchanged, for every fuel. -/
theorem recv_any_single_process (rank fuel : Nat) (p : Pending) (h : History) :
    recv_any 1 rank fuel p h = (p, h) := by
  cases fuel <;> rfl

/-- C7 counterexample: registering `["worker_rank"]` a second time on a
registry already containing it does NOT leave the registry equal to what a
single registration produces — `extend` appends a duplicate. -/
theorem append_keys_not_idempotent :
    ¬ (((History.empty.append_keys_infos ["worker_rank"]).append_keys_infos
          ["worker_rank"]).get_keys_infos
        = (History.empty.append_keys_infos ["worker_rank"]).get_keys_infos) := by
  decide

/-- C7 amended: `append_keys_infos` always extends the registry by the given
names (Python `list.extend`), so repeating an identical registration
appends the names again and duplicates accumulate; registration is not
idempotent. -/
theorem append_keys_extends (h : History) (k : List String) :
    (h.append_keys_infos k).get_keys_infos = h.get_keys_infos ++ k := rfl

/-- C8: for a fixed master seed and process count (and fixed rank, budget,
deterministic run function and transport delivery schedule), two executions
derive the same per-rank optimizer seed and produce the same sequence of
proposed configurations. -/
theorem seed_determinism (draw : Nat → Nat → Nat → Nat) (askFn : Opt → Config)
    (run : Config → RunOutput) (rank : Nat) (ts : ℚ) (sched : Nat → List Obs)
    (fires : Nat → Bool) (max_evals : Int) (fuel : Nat)
    (seed1 seed2 size1 size2 : Nat)
    (hseed : seed1 = seed2) (hsize : size1 = size2) :
    rankSeed draw seed1 size1 rank = rankSeed draw seed2 size2 rank ∧
    (searchBody askFn run rank ts sched fires (rankSeed draw seed1 size1 rank)
        max_evals fuel).1.proposals
      = (searchBody askFn run rank ts sched fires
          (rankSeed draw seed2 size2 rank) max_evals fuel).1.proposals := by
  subst hseed
  subst hsize
  exact ⟨rfl, rfl⟩

/-- Witness for C8 at master seed 42, process count 4, rank 0. -/
theorem seed_determinism_witness :
    ((42 : Nat) = 42 ∧ (4 : Nat) = 4) ∧
    (rankSeed drawC 42 4 0 = rankSeed drawC 42 4 0 ∧
     (searchBody askC runC 0 0 (fun _ => []) (fun _ => false)
         (rankSeed drawC 42 4 0) 2 2).1.proposals
       = (searchBody askC runC 0 0 (fun _ => []) (fun _ => false)
           (rankSeed drawC 42 4 0) 2 2).1.proposals) :=
  ⟨⟨rfl, rfl⟩,
   seed_determinism drawC askC runC 0 0 (fun _ => []) (fun _ => false) 2 2
     42 42 4 4 rfl rfl⟩

/-- C4: whenever the loop of `_search` ends through the raised
`SearchTerminationError` (the timeout alarm fired at a checkpoint), the
outer `search` driver — given any timeout argument that passed validation —
catches it, does not propagate it, and returns the materialized table built
from the History accumulated so far. -/
theorem termination_swallowed (askFn : Opt → Config) (run : Config → RunOutput)
    (rank : Nat) (ts : ℚ) (sched : Nat → List Obs) (fires : Nat → Bool)
    (seed : Nat) (hpNames : List String) (max_evals : Int) (t : PyValue)
    (fuel : Nat)
    (ht : validateTimeout t = Except.ok ())
    (hterm : (searchBody askFn run rank ts sched fires seed max_evals fuel).2
        = LoopExit.terminated) :
    search askFn run rank ts sched fires seed hpNames max_evals t fuel
      = Except.ok (gather_results hpNames
          (searchBody askFn run rank ts sched fires seed max_evals
            fuel).1.history) := by
  simp [search, ht]

/-- Witness for C4: the alarm fires at the very first loop checkpoint of a
budget-5 search; `search` still returns the gathered table. -/
theorem termination_swallowed_witness :
    (validateTimeout PyValue.noneV = Except.ok () ∧
     (searchBody askC runC 0 0 (fun _ => []) (fun _ => true) 7 5 3).2
        = LoopExit.terminated) ∧
    search askC runC 0 0 (fun _ => []) (fun _ => true) 7 ["x0"] 5
        PyValue.noneV 3
      = Except.ok (gather_results ["x0"]
          (searchBody askC runC 0 0 (fun _ => []) (fun _ => true) 7 5
            3).1.history) :=
  ⟨⟨rfl, by decide⟩,
   termination_swallowed askC runC 0 0 (fun _ => []) (fun _ => true) 7 ["x0"]
     5 PyValue.noneV 3 rfl (by decide)⟩

/-- Step equation of the search loop when the alarm never fires and no
message is ever drained (single-process group). -/
theorem searchLoop_step (askFn : Opt → Config) (run : Config → RunOutput)
    (rank : Nat) (ts : ℚ) (max_evals : Int) (fuel k : Nat) (s : SearchState) :
    searchLoop askFn run rank ts (fun _ => []) (fun _ => false) (fuel + 1)
        max_evals k s
      = if max_evals < 0 ∨ (s.history.length : Int) < max_evals then
          searchLoop askFn run rank ts (fun _ => []) (fun _ => false) fuel
            max_evals (k + 1) (loopIter askFn run rank ts [] s)
        else (s, LoopExit.budget) := by
  simp [searchLoop]

/-- In a single-process run that is not interrupted, enough fuel drives the
loop to the normal budget exit with the history at exactly the budget. -/
theorem searchLoop_budget_aux (askFn : Opt → Config) (run : Config → RunOutput)
    (rank : Nat) (ts : ℚ) (max_evals : Int) :
    ∀ (fuel k : Nat) (s : SearchState),
      s.history.list_y.length = s.history.list_x.length →
      (s.history.length : Int) ≤ max_evals →
      max_evals < (s.history.length : Int) + fuel →
      (searchLoop askFn run rank ts (fun _ => []) (fun _ => false) fuel
          max_evals k s).2 = LoopExit.budget ∧
      (searchLoop askFn run rank ts (fun _ => []) (fun _ => false) fuel
          max_evals k s).1.history.list_x.length = max_evals.toNat ∧
      (searchLoop askFn run rank ts (fun _ => []) (fun _ => false) fuel
          max_evals k s).1.history.list_y.length = max_evals.toNat := by
  intro fuel
  induction fuel with
  | zero =>
    intro k s hbal hle hlt
    exfalso
    simp only [History.length] at hle hlt
    omega
  | succ fuel ih =>
    intro k s hbal hle hlt
    simp only [History.length] at hle hlt
    by_cases hcond : (s.history.list_x.length : Int) < max_evals
    · have hor : max_evals < 0 ∨ ((s.history.length : Nat) : Int) < max_evals :=
        Or.inr (by simpa [History.length] using hcond)
      rw [searchLoop_step, if_pos hor]
      have hlx := (loopIter_lengths askFn run rank ts s).1
      have hly := (loopIter_lengths askFn run rank ts s).2
      refine ih (k + 1) (loopIter askFn run rank ts [] s) ?_ ?_ ?_
      · rw [hlx, hly, hbal]
      · simp only [History.length]
        rw [hlx]
        omega
      · simp only [History.length]
        rw [hlx]
        omega
    · have hor : ¬ (max_evals < 0 ∨ ((s.history.length : Nat) : Int) < max_evals) := by
        push_neg
        simp only [History.length]
        omega
      rw [searchLoop_step, if_neg hor]
      have hx : s.history.list_x.length = max_evals.toNat := by
        have h1 : (s.history.list_x.length : Int) ≤ max_evals := hle
        omega
      exact ⟨rfl, hx, by rw [hbal]; exact hx⟩

/-- A negative budget can never produce the budget exit: the loop condition
`max_evals < 0 or length < max_evals` stays true, so the loop is bounded
only by the timeout or by fuel. -/
theorem searchLoop_no_budget_aux (askFn : Opt → Config)
    (run : Config → RunOutput) (rank : Nat) (ts : ℚ) (sched : Nat → List Obs)
    (fires : Nat → Bool) (max_evals : Int) (hme : max_evals < 0) :
    ∀ (fuel k : Nat) (s : SearchState),
      (searchLoop askFn run rank ts sched fires fuel max_evals k s).2
        ≠ LoopExit.budget := by
  intro fuel
  induction fuel with
  | zero => intro k s h; exact absurd h (by simp [searchLoop])
  | succ fuel ih =>
    intro k s
    simp only [searchLoop]
    cases hf : fires k with
    | true => simp
    | false =>
      simp only [Bool.false_eq_true, if_false, if_pos (Or.inl hme)]
      exact ih (k + 1) _

/-- C2: with a single process and a run function returning plain scalars,
for every budget `max_evals >= 1` the search loop ends through the normal
budget exit exactly when the local History holds `max_evals` observations,
and the gathered table has exactly `max_evals` rows; and for every
`max_evals < 0` the evaluation count never terminates the loop (the budget
exit is unreachable for every fuel, checkpoint index, state, schedule and
alarm behaviour). -/
theorem budget_termination (askFn : Opt → Config) (f : Config → ℚ)
    (rank : Nat) (ts : ℚ) (seed : Nat) (hpNames : List String)
    (max_evals : Int) :
    (1 ≤ max_evals →
      (searchBody askFn (fun x => RunOutput.scalar (f x)) rank ts
          (fun _ => []) (fun _ => false) seed max_evals max_evals.toNat).2
        = LoopExit.budget ∧
      (searchBody askFn (fun x => RunOutput.scalar (f x)) rank ts
          (fun _ => []) (fun _ => false) seed max_evals
          max_evals.toNat).1.history.length = max_evals.toNat ∧
      (gather_results hpNames
          (searchBody askFn (fun x => RunOutput.scalar (f x)) rank ts
            (fun _ => []) (fun _ => false) seed max_evals
            max_evals.toNat).1.history).nrows = max_evals.toNat) ∧
    (max_evals < 0 →
      ∀ (run : Config → RunOutput) (sched : Nat → List Obs)
        (fires : Nat → Bool) (fuel k : Nat) (s : SearchState),
        (searchLoop askFn run rank ts sched fires fuel max_evals k s).2
          ≠ LoopExit.budget) := by
  constructor
  · intro hme
    have hpre := preLoop_lengths askFn (fun x => RunOutput.scalar (f x)) rank
      ts seed
    have haux := searchLoop_budget_aux askFn (fun x => RunOutput.scalar (f x))
      rank ts max_evals max_evals.toNat 0
      (preLoop askFn (fun x => RunOutput.scalar (f x)) rank ts seed)
      (by rw [hpre.1, hpre.2])
      (by simp only [History.length]; rw [hpre.1]; omega)
      (by simp only [History.length]; rw [hpre.1]; omega)
    refine ⟨haux.1, ?_, ?_⟩
    · simpa only [History.length] using haux.2.1
    · rw [gather_nrows]
      exact haux.2.2
  · intro hme run sched fires fuel k s
    exact searchLoop_no_budget_aux askFn run rank ts sched fires max_evals hme
      fuel k s

/-- Witness for C2: `max_evals = 4` terminates with exactly 4 observations
and 4 rows; `max_evals = -1` never reaches the budget exit. -/
theorem budget_termination_witness :
    ((1 : Int) ≤ 4 ∧
     ((searchBody askC (fun x => RunOutput.scalar (fC x)) 0 0 (fun _ => [])
         (fun _ => false) 7 4 (4 : Int).toNat).2 = LoopExit.budget ∧
      (searchBody askC (fun x => RunOutput.scalar (fC x)) 0 0 (fun _ => [])
          (fun _ => false) 7 4 (4 : Int).toNat).1.history.length
        = (4 : Int).toNat ∧
      (gather_results ["x0"]
          (searchBody askC (fun x => RunOutput.scalar (fC x)) 0 0
            (fun _ => []) (fun _ => false) 7 4
            (4 : Int).toNat).1.history).nrows = (4 : Int).toNat)) ∧
    ((-1 : Int) < 0 ∧
     (searchLoop askC runC 0 0 (fun _ => []) (fun _ => false) 3 (-1) 0
         (preLoop askC runC 0 0 7)).2 ≠ LoopExit.budget) :=
  ⟨⟨by decide, (budget_termination askC fC 0 0 7 ["x0"] 4).1 (by decide)⟩,
   ⟨by decide,
    (budget_termination askC fC 0 0 7 ["x0"] (-1)).2 (by decide) runC
      (fun _ => []) (fun _ => false) 3 0 (preLoop askC runC 0 0 7)⟩⟩

/-- C10: with `max_evals = 0`, a single process, a plain-scalar run function
and no timeout, the first ask/evaluate/append happens unconditionally before
the budget check, so the search still performs exactly one evaluation, the
loop body never runs (the final state is the pre-loop state), and `search`
returns a table with exactly one row — all for every fuel. -/
theorem zero_budget_one_eval (askFn : Opt → Config) (f : Config → ℚ)
    (rank : Nat) (ts : ℚ) (seed : Nat) (hpNames : List String) (fuel : Nat) :
    (searchBody askFn (fun x => RunOutput.scalar (f x)) rank ts (fun _ => [])
        (fun _ => false) seed 0 fuel).1
      = preLoop askFn (fun x => RunOutput.scalar (f x)) rank ts seed ∧
    (searchBody askFn (fun x => RunOutput.scalar (f x)) rank ts (fun _ => [])
        (fun _ => false) seed 0 fuel).1.nEvals = 1 ∧
    search askFn (fun x => RunOutput.scalar (f x)) rank ts (fun _ => [])
        (fun _ => false) seed hpNames 0 PyValue.noneV fuel
      = Except.ok (gather_results hpNames
          (preLoop askFn (fun x => RunOutput.scalar (f x)) rank ts
            seed).history) ∧
    (gather_results hpNames
        (preLoop askFn (fun x => RunOutput.scalar (f x)) rank ts
          seed).history).nrows = 1 := by
  have hstate : (searchBody askFn (fun x => RunOutput.scalar (f x)) rank ts
      (fun _ => []) (fun _ => false) seed 0 fuel).1
        = preLoop askFn (fun x => RunOutput.scalar (f x)) rank ts seed := by
    cases fuel with
    | zero => rfl
    | succ fuel =>
      show (searchLoop askFn (fun x => RunOutput.scalar (f x)) rank ts
          (fun _ => []) (fun _ => false) (fuel + 1) 0 0
          (preLoop askFn (fun x => RunOutput.scalar (f x)) rank ts seed)).1
        = _
      rw [searchLoop_step, if_neg]
      push_neg
      exact ⟨by omega, by omega⟩
  refine ⟨hstate, ?_, ?_, ?_⟩
  · rw [hstate]
    rfl
  · simp only [search, validateTimeout]
    rw [hstate]
  · rw [gather_nrows,
      (preLoop_lengths askFn (fun x => RunOutput.scalar (f x)) rank ts seed).2]

/-- C9 counterexample: a History with registered name `worker_rank` and no
observation satisfies the claim's hypotheses (pairwise-distinct names,
every appended row — vacuously — of registry length), yet the mapping
returned by `infos()` has no entry for `worker_rank` at all, instead of
sending it to the empty column. -/
theorem infos_empty_history_cex :
    pyDictLookup ((History.empty.append_keys_infos ["worker_rank"]).infos).2.2
        "worker_rank"
      ≠ some (((History.empty.append_keys_infos
          ["worker_rank"]).list_infos).map fun r => r.getD 0 0) := by
  decide

/-- C9 amended: for every History with at least one Observation, pairwise
distinct registered names, and every side-info row of the registry's
length, `infos()` returns the configuration list and the objective list in
insertion order together with a mapping sending the j-th registered name to
the j-th column of the side-info rows (for an empty History the mapping is
empty and contains no names). -/
theorem infos_column_mapping (h : History)
    (hnd : h.keys_infos.Nodup)
    (hlen : ∀ r ∈ h.list_infos, r.length = h.keys_infos.length)
    (hne : h.list_infos ≠ [])
    (j : Nat) (hj : j < h.keys_infos.length) :
    (h.infos).1 = h.list_x ∧ (h.infos).2.1 = h.list_y ∧
    pyDictLookup (h.infos).2.2 (h.keys_infos.getD j "")
      = some (h.list_infos.map fun r => r.getD j 0) := by
  refine ⟨rfl, rfl, ?_⟩
  have hcols : npTranspose h.list_infos
      = (List.range h.keys_infos.length).map
          (fun i => h.list_infos.map fun r => r.getD i 0) := by
    cases hinf : h.list_infos with
    | nil => exact absurd hinf hne
    | cons r0 rest =>
      have hr0 : r0.length = h.keys_infos.length := by
        refine hlen r0 ?_
        rw [hinf]
        exact List.mem_cons_self r0 rest
      simp [npTranspose, hr0]
  show pyDictLookup (h.keys_infos.zip (npTranspose h.list_infos))
      (h.keys_infos.getD j "") = _
  rw [hcols, pyDictLookup_zip h.keys_infos _ hnd (by simp) j hj,
    List.get?_map, List.get?_range hj]
  rfl

/-- Witness for C9 (amended) at a concrete one-observation history. -/
theorem infos_column_mapping_witness :
    (historyC.keys_infos.Nodup ∧
     (∀ r ∈ historyC.list_infos, r.length = historyC.keys_infos.length) ∧
     historyC.list_infos ≠ [] ∧ 0 < historyC.keys_infos.length) ∧
    ((historyC.infos).1 = historyC.list_x ∧
     (historyC.infos).2.1 = historyC.list_y ∧
     pyDictLookup (historyC.infos).2.2 (historyC.keys_infos.getD 0 "")
       = some (historyC.list_infos.map fun r => r.getD 0 0)) :=
  ⟨⟨by decide, by decide, by decide, by decide⟩,
   infos_column_mapping historyC (by decide) (by decide) (by decide) 0
     (by decide)⟩
